import Mathlib

/-!
Verification development for the Adero messaging library.

The library wraps an AMQP broker with a publish/subscribe layer, a
dead-letter requeue path, and an RPC client/server pair, in two variants:
a secured variant (package `adero`, msgpack serialization plus Fernet
encryption) and a base variant (package `messaging_utility`, plain JSON).

This file gives a shallow embedding of the relevant data model and
operations, translated from the Python source:
  * `adero/utilities/message_serializer.py`  (RabbitSerializer)
  * `adero/utilities/message_security.py`    (RabbitSecurity)
  * `adero/pubsub/publisher.py`              (Publisher)
  * `adero/pubsub/subscriber.py`             (Subscriber)
  * `adero/request_response/client.py`       (RPCClient)
  * `messaging_utility/pubsub/publisher.py`  (base Publisher)
  * `messaging_utility/rpc/server.py`        (RPCServer)
External collaborators (the pika broker client, msgpack, Fernet, json) are
modelled at the level of their documented contracts; each such model is
marked in its doc comment.
-/

namespace Adero

/-! ## Python strings

Python `str` values are modelled as lists of code points.  `str.upper`
(used by the library to case-normalize queue and exchange names) is the
ASCII upper-casing map on code points. -/

/-- A Python string, as a list of code points. -/
abbrev PyStr := List Nat

/-- Embed a Lean string literal as a `PyStr`. -/
def strLit (s : String) : PyStr := s.data.map Char.toNat

/-- ASCII upper-casing of one code point, as done by `str.upper` on the
identifiers this library handles. -/
def upperCode (n : Nat) : Nat := if 97 ≤ n ∧ n ≤ 122 then n - 32 else n

/-- Model of Python `str.upper` on a queue/exchange name. -/
def pyUpper (s : PyStr) : PyStr := s.map upperCode

/-- Model of Python `str.startswith` / list prefix test. -/
def pyIsPrefix : PyStr → PyStr → Bool
  | [], _ => true
  | _ :: _, [] => false
  | a :: as, b :: bs => a == b && pyIsPrefix as bs

/-- Model of the Python substring test `needle in hay`. -/
def pyIsSub (n : PyStr) : PyStr → Bool
  | [] => pyIsPrefix n []
  | b :: t => pyIsPrefix n (b :: t) || pyIsSub n t

theorem upperCode_idem (n : Nat) : upperCode (upperCode n) = upperCode n := by
  simp only [upperCode]
  split
  · rw [if_neg (by omega)]
  · rfl

theorem pyUpper_idem (s : PyStr) : pyUpper (pyUpper s) = pyUpper s := by
  unfold pyUpper
  rw [List.map_map]
  exact List.map_congr_left fun n _ => upperCode_idem n

theorem pyIsPrefix_refl (a : PyStr) : pyIsPrefix a a = true := by
  induction a with
  | nil => rfl
  | cons x xs ih => simp [pyIsPrefix, ih]

theorem pyIsPrefix_append (a x : PyStr) : pyIsPrefix a (a ++ x) = true := by
  induction a with
  | nil => rfl
  | cons c cs ih => simp [pyIsPrefix, ih]

theorem pyIsSub_of_pyIsPrefix {n h : PyStr} (hp : pyIsPrefix n h = true) :
    pyIsSub n h = true := by
  cases h with
  | nil => simpa [pyIsSub] using hp
  | cons b t => simp [pyIsSub, hp]

theorem pyIsPrefix_append_left (a b c : PyStr) :
    pyIsPrefix (a ++ b) (a ++ c) = pyIsPrefix b c := by
  induction a with
  | nil => rfl
  | cons x xs ih => simp [pyIsPrefix, ih]

/-! ## Python payload values and the msgpack wire model

`RabbitSerializer` (adero/utilities/message_serializer.py) serializes
payloads with `msgpack.packb(data, default=extended_encoder)` and
deserializes with `msgpack.unpackb(data, raw=False)`.  `PyVal` is the
universe of Python payloads the claims range over; `Msg` is the msgpack
wire value a byte string encodes.  Modelled from the msgpack contract:
tuples and lists are both packed as msgpack arrays, and `unpackb` returns
arrays as Python lists; objects msgpack cannot pack natively are routed
through `extended_encoder`, which falls back to `str(obj)`. -/

/-- A Python payload value.  `other s` stands for an object outside the
serializer's supported types whose `str()` representation is `s`. -/
inductive PyVal where
  | int (n : Int)
  | str (s : PyStr)
  | list (xs : List PyVal)
  | tuple (xs : List PyVal)
  | dict (entries : List (PyVal × PyVal))
  | other (objRepr : PyStr)

/-- A msgpack wire value (the value denoted by a packed byte string). -/
inductive Msg where
  | mInt (n : Int)
  | mStr (s : PyStr)
  | mArr (xs : List Msg)
  | mMap (entries : List (Msg × Msg))

mutual

/-- Model of `msgpack.packb(·, default=extended_encoder)`: tuples and
lists both become arrays; an unsupported object is replaced by its
`str()` form (the `return str(obj)` fallback of `extended_encoder`). -/
def packb : PyVal → Msg
  | .int n => .mInt n
  | .str s => .mStr s
  | .list xs => .mArr (packbList xs)
  | .tuple xs => .mArr (packbList xs)
  | .dict es => .mMap (packbPairs es)
  | .other r => .mStr r

/-- Pack the elements of a Python sequence. -/
def packbList : List PyVal → List Msg
  | [] => []
  | x :: xs => packb x :: packbList xs

/-- Pack the entries of a Python mapping. -/
def packbPairs : List (PyVal × PyVal) → List (Msg × Msg)
  | [] => []
  | (k, v) :: es => (packb k, packb v) :: packbPairs es

end

mutual

/-- Model of `msgpack.unpackb(·, raw=False)`: arrays come back as Python
lists. -/
def unpackb : Msg → PyVal
  | .mInt n => .int n
  | .mStr s => .str s
  | .mArr xs => .list (unpackbList xs)
  | .mMap es => .dict (unpackbPairs es)

/-- Unpack the elements of a msgpack array. -/
def unpackbList : List Msg → List PyVal
  | [] => []
  | x :: xs => unpackb x :: unpackbList xs

/-- Unpack the entries of a msgpack map. -/
def unpackbPairs : List (Msg × Msg) → List (PyVal × PyVal)
  | [] => []
  | (k, v) :: es => (unpackb k, unpackb v) :: unpackbPairs es

end

mutual

/-- The normalization a msgpack round trip applies to a payload: tuples
become lists, unsupported objects become their `str()` form. -/
def msgpackNorm : PyVal → PyVal
  | .int n => .int n
  | .str s => .str s
  | .list xs => .list (msgpackNormList xs)
  | .tuple xs => .list (msgpackNormList xs)
  | .dict es => .dict (msgpackNormPairs es)
  | .other r => .str r

/-- Normalization on sequence elements. -/
def msgpackNormList : List PyVal → List PyVal
  | [] => []
  | x :: xs => msgpackNorm x :: msgpackNormList xs

/-- Normalization on mapping entries. -/
def msgpackNormPairs : List (PyVal × PyVal) → List (PyVal × PyVal)
  | [] => []
  | (k, v) :: es => (msgpackNorm k, msgpackNorm v) :: msgpackNormPairs es

end

/-- `isinstance(data, (tuple, list, str, dict, int))`, the top-level type
check of `RabbitSerializer.encode_data`. -/
def isCompatibleType : PyVal → Bool
  | .int _ => true
  | .str _ => true
  | .list _ => true
  | .tuple _ => true
  | .dict _ => true
  | .other _ => false

/-- Errors raised by the serializer (`RabbitSerializerException`). -/
inductive SerErr where
  | unsupportedType
deriving DecidableEq, Repr

/-- `RabbitSerializer.encode_data`: reject unsupported top-level types,
otherwise pack.  No network I/O is involved. -/
def encode_data (data : PyVal) : Except SerErr Msg :=
  if isCompatibleType data then .ok (packb data) else .error .unsupportedType

/-- `RabbitSerializer.decode_data` on a well-formed packed message. -/
def decode_data (data : Msg) : PyVal := unpackb data

mutual

theorem unpackb_packb : ∀ v : PyVal, unpackb (packb v) = msgpackNorm v
  | .int _ => rfl
  | .str _ => rfl
  | .other _ => rfl
  | .list xs => by
    simp only [packb, unpackb, msgpackNorm]
    rw [unpackbList_packbList xs]
  | .tuple xs => by
    simp only [packb, unpackb, msgpackNorm]
    rw [unpackbList_packbList xs]
  | .dict es => by
    simp only [packb, unpackb, msgpackNorm]
    rw [unpackbPairs_packbPairs es]

theorem unpackbList_packbList : ∀ xs : List PyVal,
    unpackbList (packbList xs) = msgpackNormList xs
  | [] => rfl
  | x :: xs => by
    simp only [packbList, unpackbList, msgpackNormList]
    rw [unpackb_packb x, unpackbList_packbList xs]

theorem unpackbPairs_packbPairs : ∀ es : List (PyVal × PyVal),
    unpackbPairs (packbPairs es) = msgpackNormPairs es
  | [] => rfl
  | (k, v) :: es => by
    simp only [packbPairs, unpackbPairs, msgpackNormPairs]
    rw [unpackb_packb k, unpackb_packb v, unpackbPairs_packbPairs es]

end

/-! ## Message security

`RabbitSecurity` (adero/utilities/message_security.py) wraps the Fernet
cipher of the `cryptography` package.  The cipher itself is an external
collaborator; it is modelled abstractly as a pair of functions with the
documented Fernet contract: decryption inverts encryption under the same
key (and fails on tokens the key does not authenticate).  The repository
code contributes the `isinstance(message, bytes)` guards around it. -/

/-- Python `bytes`, as a list of byte values. -/
abbrev PyBytes := List Nat

/-- An abstract invertible cipher over transport values of type `α`,
standing for `Fernet(encryption_key)`: `dec` undoes `enc`, and may fail
on arbitrary other inputs (`InvalidToken`). -/
structure Cipher (α : Type) where
  enc : α → α
  dec : α → Option α
  dec_enc : ∀ m, dec (enc m) = some m

/-- An argument passed to `encrypt_message`/`decipher_message`: either a
Python `bytes` object or some non-bytes object. -/
inductive BytesArg (α : Type) where
  | bytes (b : α)
  | notBytes

/-- Errors raised by `RabbitSecurity` (`RabbitSecurityException`) or by
the underlying Fernet cipher (`InvalidToken`). -/
inductive SecErr where
  | messageNotBytes
  | invalidToken

/-- `RabbitSecurity.encrypt_message`: reject non-bytes input, otherwise
encrypt with the configured key's cipher. -/
def encrypt_message {α : Type} (c : Cipher α) : BytesArg α → Except SecErr α
  | .bytes b => .ok (c.enc b)
  | .notBytes => .error .messageNotBytes

/-- `RabbitSecurity.decipher_message`: reject non-bytes input, otherwise
decrypt with the configured key's cipher. -/
def decipher_message {α : Type} (c : Cipher α) : BytesArg α → Except SecErr α
  | .bytes b =>
    match c.dec b with
    | some m => .ok m
    | none => .error .invalidToken
  | .notBytes => .error .messageNotBytes

/-! ## Subscriber: destination and dead-letter derivation

From `Subscriber.__init__` (adero/pubsub/subscriber.py, lines 47-58):
the queue and exchange names are upper-cased, and a secondary
`FAILED-<queue>` requeue destination is derived unless the queue name
already contains the `FAILED-` marker. -/

/-- The fixed dead-letter marker `"FAILED-"`. -/
def failedMarker : PyStr := strLit "FAILED-"

/-- The destination-related state a `Subscriber` computes at
construction: the normalized queue name, whether failed messages are
rerouted to a secondary queue, and the requeue destination. -/
structure SubDest where
  queue_name : PyStr
  requeue_msg_to_failed_queue : Bool
  requeue_queue : PyStr

/-- `Subscriber.__init__` lines 47-58: upper-case the queue name, then
derive the requeue destination.  `"FAILED-" not in self.queue_name`
creates `FAILED-<queue>`; otherwise the queue handles its own
reprocessing. -/
def mkSubDest (queue_name : PyStr) : SubDest :=
  let q := pyUpper queue_name
  if pyIsSub failedMarker q then
    ⟨q, false, q⟩
  else
    ⟨q, true, failedMarker ++ q⟩

/-! ## Subscriber: message handler

`Subscriber.callback` (adero/pubsub/subscriber.py, lines 110-142)
decrypts the delivered body, decodes it, invokes the injected processing
function on `{"data": data, "properties": props}`, and resolves the
outcome with broker acknowledgement operations. -/

/-- A broker channel operation issued by a message handler. -/
inductive BrokerAction where
  | basicAck (deliveryTag : Nat)
  | basicNack (deliveryTag : Nat) (requeue : Bool)
  | basicPublish (exchange routingKey : PyStr) (body : Msg) (mandatory : Bool)
  | basicReject (deliveryTag : Nat) (requeue : Bool)

/-- `Subscriber.callback`.  `Props` is the type of the delivery
properties object (opaque to the handler logic); `cipher` models the
`RabbitSecurity` Fernet instance; transport bodies are msgpack wire
values.  The processing function receives the decoded data and the
properties (the `{"data": ..., "properties": ...}` wrapper).  Returns
the broker operations performed, or the exception propagated out of the
handler. -/
def Subscriber.callback {Props : Type} (dest : SubDest) (exchange : PyStr)
    (cipher : Cipher Msg) (custom_data_processor : PyVal → Props → Bool)
    (deliveryTag : Nat) (properties : Props) (body : Msg) :
    Except SecErr (List BrokerAction) :=
  match decipher_message cipher (.bytes body) with
  | .error e => .error e
  | .ok decrypted_message =>
    let data := decode_data decrypted_message
    if custom_data_processor data properties then
      .ok [.basicAck deliveryTag]
    else if dest.requeue_msg_to_failed_queue then
      .ok [.basicNack deliveryTag false,
           .basicPublish exchange dest.requeue_queue body true]
    else
      .ok [.basicReject deliveryTag true]

/-! ## Configuration and construction

Both `Publisher.__init__` (adero/pubsub/publisher.py, lines 29-55) and
`Subscriber.__init__` (adero/pubsub/subscriber.py, lines 26-62) read the
configuration mapping, validate
`all([user, password, host_ip, port, vhost is not None, timeout])`
(raising before any network I/O if it fails), construct the
`RabbitSecurity` cipher from the encryption key, and only then connect
to the broker. -/

/-- The configuration mapping passed to a constructor.  `none` models an
absent key; defaults are applied at the `config.get` call sites. -/
structure PyConfig where
  RABBIT_USER : Option String
  RABBIT_PASSWORD : Option String
  RABBIT_HOST_IP : Option String
  RABBIT_PORT : Option Nat
  RABBIT_VHOST : Option String
  RABBIT_CONNECTION_TIMEOUT : Option Nat
  RABBIT_CONNECTION_CLOSED_RETRY : Option Nat
  ENCRYPTION_KEY : Option PyBytes

/-- Python truthiness of an optional string: `None` and `""` are falsy. -/
def truthyStr : Option String → Bool
  | none => false
  | some s => s ≠ ""

/-- The `all([...])` check shared by the secured Publisher and
Subscriber constructors.  Note the virtual host is only tested with
`is not None`, while the other fields use plain truthiness; port and
timeout have defaults applied first (`5672` and `60 * 5`). -/
def requiredConfigsPresent (c : PyConfig) : Bool :=
  truthyStr c.RABBIT_USER && truthyStr c.RABBIT_PASSWORD &&
    truthyStr c.RABBIT_HOST_IP && (c.RABBIT_PORT.getD 5672 != 0) &&
    c.RABBIT_VHOST.isSome && (c.RABBIT_CONNECTION_TIMEOUT.getD (60 * 5) != 0)

/-- `int(config.get("RABBIT_CONNECTION_CLOSED_RETRY", 3))`, the
subscriber's reconnect budget. -/
def subscriberRetries (c : PyConfig) : Nat :=
  c.RABBIT_CONNECTION_CLOSED_RETRY.getD 3

/-- Errors raised synchronously by a constructor:
`PublisherException`/`SubscriberException` for missing configs, and
`RabbitSecurityException` when the encryption key is not bytes. -/
inductive InitErr where
  | missingConfigs
  | keyNotBytes

/-- A network side effect of construction.  `connect` stands for
`create_connection_to_rabbitmq_host` (connection, channel, exchange and
queue declarations, bindings). -/
inductive NetEffect where
  | connect

/-- The state a secured `Publisher` holds after construction that the
claims refer to: normalized names and the retry counter, which starts
at 1. -/
structure PublisherState where
  queue_name : PyStr
  exchange : PyStr
  retry_count : Nat

/-- `Publisher.__init__`: read configs, validate them (raising before
any network I/O), build the security layer from the key, upper-case the
names, set `self.retry_count = 1`, then connect.  The first component
lists the network effects performed. -/
def publisherInit (queue_name exchange : PyStr) (config : PyConfig) :
    List NetEffect × Except InitErr PublisherState :=
  if ¬ requiredConfigsPresent config then
    ([], .error .missingConfigs)
  else if config.ENCRYPTION_KEY.isNone then
    ([], .error .keyNotBytes)
  else
    ([.connect], .ok ⟨pyUpper queue_name, pyUpper exchange, 1⟩)

/-- The state a secured `Subscriber` holds after construction that the
claims refer to. -/
structure SubscriberState where
  dest : SubDest
  exchange : PyStr
  retries : Nat

/-- `Subscriber.__init__`: same validation as the publisher, plus the
reconnect budget, the dead-letter destination derivation, and the
callable check on the injected processing function. -/
def subscriberInit (queue_name exchange : PyStr) (config : PyConfig)
    (processorCallable : Bool) :
    List NetEffect × Except InitErr SubscriberState :=
  if ¬ requiredConfigsPresent config then
    ([], .error .missingConfigs)
  else if config.ENCRYPTION_KEY.isNone then
    ([], .error .keyNotBytes)
  else if ¬ processorCallable then
    ([], .error .missingConfigs)
  else
    ([.connect],
     .ok ⟨mkSubDest queue_name, pyUpper exchange, subscriberRetries config⟩)

/-! ## Secured Publisher: publish with retry/backoff

`Publisher.publish` (adero/pubsub/publisher.py, lines 82-148).  The
broker is modelled as a function from the attempt number (1-based) to
whether `basic_publish` succeeds on that attempt; an unsuccessful
attempt raises `AMQPError`. -/

/-- The observable outcome of a `publish` call:
  * `invalidArgs` — `message_properties` was not a dict; the error is
    logged and the call returns without publishing (lines 98-103);
  * `swallowed` — a non-broker exception during encode/encrypt was
    caught by the generic `except Exception` handler and logged
    (lines 146-147); the call returns without raising;
  * `sent sleeps rc` — the payload was published; `sleeps` lists the
    backoff waits performed and `rc` is `self.retry_count` afterwards;
  * `pubError sleeps rc` — `PublisherException` raised to the caller
    after the retry ceiling, wrapping the broker error (lines 141-145). -/
inductive PubResult where
  | invalidArgs
  | swallowed
  | sent (sleeps : List Nat) (retry_count : Nat)
  | pubError (sleeps : List Nat) (retry_count : Nat)

/-- Prepend a backoff wait to the sleeps recorded by a publish
outcome. -/
def PubResult.withSleep (w : Nat) : PubResult → PubResult
  | .sent s rc => .sent (w :: s) rc
  | .pubError s rc => .pubError (w :: s) rc
  | r => r

/-- `Publisher.publish`, with the broker attempt outcomes abstracted.
`propsOk` is `isinstance(message_properties, dict)`; `encodeOk` is
whether serialize+encrypt succeed; `attempt` is the 1-based index of the
next `basic_publish` attempt; `rc` is the current `self.retry_count`.
On `AMQPError` with `retry_count <= 5` the call sleeps
`60 * retry_count` seconds, increments the counter and re-invokes
itself; past the ceiling it raises `PublisherException`. -/
def aderoPublish (propsOk encodeOk : Bool) (broker : Nat → Bool)
    (attempt rc : Nat) : PubResult :=
  if ¬ propsOk then .invalidArgs
  else if ¬ encodeOk then .swallowed
  else if broker attempt then .sent [] rc
  else if h : rc ≤ 5 then
    (aderoPublish propsOk encodeOk broker (attempt + 1) (rc + 1)).withSleep (60 * rc)
  else .pubError [] rc
termination_by 6 - rc
decreasing_by omega

/-- A broker behavior that fails the first `n` publish attempts and
succeeds afterwards. -/
def failFirst (n : Nat) (attempt : Nat) : Bool := n < attempt

/-! ## Base Publisher: publish (messaging_utility variant)

`Publisher.publish` of messaging_utility/pubsub/publisher.py, lines
80-113.  It performs no validation of `message_properties` and has no
retry logic: a non-mapping argument raises an unhandled
`AttributeError` at `message_properties.get(...)`, and broker errors
propagate. -/

/-- The outcome of the base variant's `publish`. -/
inductive BasePubResult where
  | attributeError
  | brokerErrorRaised
  | sent

/-- The base `publish`: no `isinstance` check, no try/except.
`propsIsMapping` is whether `message_properties` supports the mapping
interface; `brokerOk` is whether `basic_publish` succeeds. -/
def basePublish (propsIsMapping brokerOk : Bool) : BasePubResult :=
  if ¬ propsIsMapping then .attributeError
  else if brokerOk then .sent
  else .brokerErrorRaised

/-! ## Subscriber: consume loop

`Subscriber.consume` (adero/pubsub/subscriber.py, lines 144-175).  Each
invocation (re)registers the consumer and blocks in
`start_consuming`; the way that blocking call ends is modelled as one
event per invocation. -/

/-- How one `start_consuming` invocation ends:
  * `brokerClosed` — the broker closed the connection (`AMQPError`);
  * `interrupted` — operator cancellation (`KeyboardInterrupt`);
  * `stopped` — the receive loop returned normally;
  * `crashed` — an exception outside the two handled classes. -/
inductive ConsumeEvent where
  | brokerClosed
  | interrupted
  | stopped
  | crashed

/-- How `consume` finally returned. -/
inductive ConsumeExit where
  | stoppedNormally
  | closedByInterrupt
  | dormant
deriving DecidableEq

/-- What a completed `consume` call did: the reconnect waits performed,
the number of reconnect attempts, and how the loop ended. -/
structure ConsumeTrace where
  sleeps : List Nat
  reconnects : Nat
  exit : ConsumeExit

/-- An exception propagated out of `consume` (only exceptions outside
`AMQPError`/`KeyboardInterrupt` can). -/
inductive ConsumeErr where
  | unhandled

/-- `Subscriber.consume`: on `AMQPError`, if `self.retries > 0`, wait 5
seconds, decrement the budget and recurse; after the recursive call
returns (or when the budget is exhausted) the handler logs and the call
returns normally.  `KeyboardInterrupt` stops and closes the channel and
connection.  Any other exception propagates. -/
def consume (retries : Nat) (events : List ConsumeEvent) :
    Except ConsumeErr ConsumeTrace :=
  match events with
  | [] => .ok ⟨[], 0, .stoppedNormally⟩
  | .stopped :: _ => .ok ⟨[], 0, .stoppedNormally⟩
  | .interrupted :: _ => .ok ⟨[], 0, .closedByInterrupt⟩
  | .crashed :: _ => .error .unhandled
  | .brokerClosed :: rest =>
    if 0 < retries then
      match consume (retries - 1) rest with
      | .ok t => .ok ⟨5 :: t.sleeps, t.reconnects + 1, t.exit⟩
      | .error e => .error e
    else
      .ok ⟨[], 0, .dormant⟩

/-! ## RPC client and server

`RPCClient` (adero/request_response/client.py) and `RPCServer`
(messaging_utility/rpc/server.py).  Both sides exchange JSON text
(`json.dumps` / `json.loads`); the JSON codec is an external
collaborator and is abstracted as a `dumps`/`loads` function pair whose
contract on the values actually exchanged is taken as a hypothesis
where needed.  Transport bodies are `PyStr` (the JSON text). -/

/-- The message `RPCClient.call` publishes (lines 134-142): request
queue routing, the private reply queue in `reply_to`, the fresh
correlation id, and the serialized payload. -/
structure PublishedRequest where
  exchange : PyStr
  routing_key : PyStr
  reply_to : PyStr
  correlation_id : PyStr
  body : PyStr

/-- A reply delivered on the client's private callback queue:
its correlation id and raw body. -/
structure Reply where
  correlation_id : PyStr
  body : PyStr

/-- `RPCClient.on_response` (lines 108-120): record the body as the
response only when the correlation id matches the outstanding call. -/
def RPCClient.on_response (corr_id : PyStr) (response : Option PyStr)
    (props_correlation_id : PyStr) (body : PyStr) : Option PyStr :=
  if corr_id = props_correlation_id then some body else response

/-- `RPCClient.call` (lines 122-144): clear the stale response, take a
fresh correlation id (`uuid4`, passed in as `corr_id`), publish the
serialized request with `reply_to` and `correlation_id` set, then block
in `process_data_events` while the broker dispatches `deliveries` to
`on_response`, and return `self.response`. -/
def RPCClient.call (dumps : PyVal → PyStr)
    (exchange queue_name callback_queue corr_id : PyStr) (data : PyVal)
    (deliveries : List Reply) : PublishedRequest × Option PyStr :=
  let request : PublishedRequest :=
    ⟨exchange, queue_name, callback_queue, corr_id, dumps data⟩
  let response := deliveries.foldl
    (fun acc d => RPCClient.on_response corr_id acc d.correlation_id d.body)
    none
  (request, response)

/-- A Python exception escaping the server's request handler. -/
inductive PyErr where
  | typeError
  | jsonDecodeError

/-- Model of Python `int(x)` as applied in `RPCServer.on_request`: an
`int` passes through; a mapping, sequence or similar object raises
`TypeError`.  (CPython would also coerce numeric strings and floats;
no claim depends on those cases.) -/
def pyIntCast : PyVal → Except PyErr Int
  | .int n => .ok n
  | _ => .error .typeError

/-- `RPCServer.on_request` (messaging_utility/rpc/server.py, lines
138-166): decode the body with `json.loads`, coerce it with `int(msg)`,
invoke the handler, publish `json.dumps(response)` to the `reply_to`
address with the same correlation id, then ack the delivery.  An
exception at any step propagates: no reply is published and the request
is not acked. -/
def RPCServer.on_request (loads : PyStr → Except PyErr PyVal)
    (dumps : PyVal → PyStr) (custom_data_processor : Int → PyVal)
    (delivery_tag : Nat) (reply_to correlation_id : PyStr) (body : PyStr) :
    Except PyErr (Reply × PyStr × Nat) :=
  match loads body with
  | .error e => .error e
  | .ok msg =>
    match pyIntCast msg with
    | .error e => .error e
    | .ok k =>
      let response := custom_data_processor k
      .ok (⟨correlation_id, dumps response⟩, reply_to, delivery_tag)

/-! ## Claim C6: serializer round trip -/

/-- C6 (counterexample).  A tuple payload is accepted by
`encode_data` (tuples are in the `isinstance` allow-list) but the
msgpack round trip returns it as a Python list, which is a different
value: `decode_data(encode_data((1, 2))) == [1, 2] != (1, 2)`. -/
theorem serializer_tuple_not_round_trip :
    encode_data (.tuple [.int 1, .int 2]) = .ok (.mArr [.mInt 1, .mInt 2]) ∧
    decode_data (.mArr [.mInt 1, .mInt 2]) = .list [.int 1, .int 2] ∧
    PyVal.list [.int 1, .int 2] ≠ PyVal.tuple [.int 1, .int 2] :=
  ⟨rfl, rfl, fun h => PyVal.noConfusion h⟩

/-- C6 (amended).  For every payload of a supported top-level type
(mapping, sequence, string, integer) the round trip
`decode_data (encode_data payload)` returns the payload with msgpack's
normalization applied; in particular it equals the payload whenever the
payload is fixed by that normalization (no tuple component and no
unsupported object inside), which covers mappings, lists, strings and
integers.  For every payload of an unsupported top-level type,
`encode_data` fails with the serialization error before any network
I/O. -/
theorem serializer_round_trip (v : PyVal) :
    (isCompatibleType v = true → encode_data v = .ok (packb v) ∧
      decode_data (packb v) = msgpackNorm v) ∧
    (isCompatibleType v = true → msgpackNorm v = v →
      decode_data (packb v) = v) ∧
    (isCompatibleType v = false → encode_data v = .error .unsupportedType) := by
  refine ⟨fun hc => ⟨?_, ?_⟩, fun hc hn => ?_, fun hc => ?_⟩
  · simp [encode_data, hc]
  · exact unpackb_packb v
  · rw [decode_data, unpackb_packb v, hn]
  · simp [encode_data, hc]

/-- C6 (witness): the round trip at the dictionary
`{"key": "value"}` used by the repository's tests, and the rejection of
an unsupported object (`str()` form `"{1, 2, 3}"` elided). -/
theorem serializer_round_trip_witness :
    decode_data (packb (.dict [(.str (strLit "key"), .str (strLit "value"))])) =
      PyVal.dict [(.str (strLit "key"), .str (strLit "value"))] ∧
    encode_data (.other (strLit "set")) = .error .unsupportedType :=
  ⟨(serializer_round_trip
      (.dict [(.str (strLit "key"), .str (strLit "value"))])).2.1 rfl rfl,
   (serializer_round_trip (.other (strLit "set"))).2.2 rfl⟩

/-! ## Claim C9: security round trip -/

/-- C9.  With a configured key (modelled by any cipher satisfying the
Fernet contract `dec_enc`), deciphering an encrypted bytes value
returns the original bytes, and both `encrypt_message` and
`decipher_message` fail with the security error on a non-bytes
input. -/
theorem security_round_trip (c : Cipher PyBytes) (b : PyBytes) :
    (∀ ct, encrypt_message c (.bytes b) = .ok ct →
       decipher_message c (.bytes ct) = .ok b) ∧
    encrypt_message c .notBytes = .error .messageNotBytes ∧
    decipher_message c .notBytes = .error .messageNotBytes := by
  refine ⟨fun ct hct => ?_, rfl, rfl⟩
  have hct' : ct = c.enc b := by
    simpa [encrypt_message] using hct.symm
  simp [decipher_message, hct', c.dec_enc]

/-- A concrete cipher satisfying the Fernet contract: encryption frames
the plaintext behind a version byte, decryption checks and strips it. -/
def demoCipher : Cipher PyBytes where
  enc := fun b => 128 :: b
  dec := fun b =>
    match b with
    | 128 :: r => some r
    | _ => none
  dec_enc := fun _ => rfl

/-- C9 (witness): the round trip at the bytes `[1, 2, 3]` under
`demoCipher`, and both non-bytes failures. -/
theorem security_round_trip_witness :
    decipher_message demoCipher (.bytes (demoCipher.enc [1, 2, 3])) =
      .ok [1, 2, 3] ∧
    encrypt_message demoCipher .notBytes = .error .messageNotBytes ∧
    decipher_message demoCipher .notBytes = .error .messageNotBytes :=
  ⟨(security_round_trip demoCipher [1, 2, 3]).1 (demoCipher.enc [1, 2, 3]) rfl,
   (security_round_trip demoCipher [1, 2, 3]).2.1,
   (security_round_trip demoCipher [1, 2, 3]).2.2⟩

/-! ## Claim C7: dead-letter destination derivation -/

/-- C7.  The dead-letter destination is derived deterministically by
prefixing the case-normalized queue name with `FAILED-` unless the name
already carries the marker, in which case no secondary destination is
created and the requeue destination is the queue itself.  Dead-lettering
is at most one level deep: the dead-letter destination of a dead-letter
destination is itself, and a created secondary destination never starts
with `FAILED-FAILED-`. -/
theorem dead_letter_derivation (q : PyStr) :
    (pyIsSub failedMarker (pyUpper q) = false →
       mkSubDest q = ⟨pyUpper q, true, failedMarker ++ pyUpper q⟩) ∧
    (pyIsSub failedMarker (pyUpper q) = true →
       mkSubDest q = ⟨pyUpper q, false, pyUpper q⟩) ∧
    (mkSubDest (mkSubDest q).requeue_queue).requeue_queue =
      (mkSubDest q).requeue_queue ∧
    ((mkSubDest q).requeue_msg_to_failed_queue = true →
       pyIsPrefix (failedMarker ++ failedMarker)
         (mkSubDest q).requeue_queue = false) := by
  have hupm : pyUpper failedMarker = failedMarker := by decide
  refine ⟨fun hno => ?_, fun hyes => ?_, ?_, fun hflag => ?_⟩
  · simp [mkSubDest, hno]
  · simp [mkSubDest, hyes]
  · by_cases hsub : pyIsSub failedMarker (pyUpper q) = true
    · simp only [mkSubDest, hsub, if_pos]
      have hidem := pyUpper_idem q
      simp only [hidem]
      simp [hsub]
    · have hno : pyIsSub failedMarker (pyUpper q) = false :=
        Bool.eq_false_iff.mpr hsub
      have hup : pyUpper (failedMarker ++ pyUpper q) =
          failedMarker ++ pyUpper q := by
        calc pyUpper (failedMarker ++ pyUpper q)
            = pyUpper failedMarker ++ pyUpper (pyUpper q) :=
              List.map_append upperCode failedMarker (pyUpper q)
          _ = failedMarker ++ pyUpper q := by rw [hupm, pyUpper_idem]
      have hin : pyIsSub failedMarker (failedMarker ++ pyUpper q) = true :=
        pyIsSub_of_pyIsPrefix (pyIsPrefix_append failedMarker (pyUpper q))
      simp [mkSubDest, hno, hin, hup]
  · have hno : pyIsSub failedMarker (pyUpper q) = false := by
      cases hsub : pyIsSub failedMarker (pyUpper q) with
      | false => rfl
      | true => simp [mkSubDest, hsub] at hflag
    have hrq : (mkSubDest q).requeue_queue = failedMarker ++ pyUpper q := by
      simp [mkSubDest, hno]
    rw [hrq, pyIsPrefix_append_left]
    cases hp : pyIsPrefix failedMarker (pyUpper q) with
    | false => rfl
    | true =>
      have := pyIsSub_of_pyIsPrefix hp
      rw [this] at hno
      exact absurd hno (by simp)

/-- C7 (witness): the derivation at the concrete queues `"orders"` and
`"FAILED-X"`. -/
theorem dead_letter_derivation_witness :
    mkSubDest (strLit "orders") =
      ⟨pyUpper (strLit "orders"), true,
       failedMarker ++ pyUpper (strLit "orders")⟩ ∧
    (mkSubDest (mkSubDest (strLit "FAILED-X")).requeue_queue).requeue_queue =
      (mkSubDest (strLit "FAILED-X")).requeue_queue ∧
    pyIsPrefix (failedMarker ++ failedMarker)
      (mkSubDest (strLit "orders")).requeue_queue = false :=
  ⟨(dead_letter_derivation (strLit "orders")).1 (by decide),
   (dead_letter_derivation (strLit "FAILED-X")).2.2.1,
   (dead_letter_derivation (strLit "orders")).2.2.2 (by decide)⟩

/-! ## Claim C2: handler failure and dead-letter routing -/

/-- C2.  When the injected processing function returns false on a
successfully decoded delivery: on a destination that is not itself a
dead-letter destination, the handler negatively-acknowledges without
requeue and republishes the identical original raw body to the paired
`FAILED-<queue>` destination; on a destination already named
`FAILED-*`, the handler rejects with requeue and publishes nothing. -/
theorem subscriber_callback_failure {Props : Type} (q exchange : PyStr)
    (cipher : Cipher Msg) (proc : PyVal → Props → Bool) (tag : Nat)
    (props : Props) (plain : Msg)
    (hfail : proc (decode_data plain) props = false) :
    (pyIsSub failedMarker (pyUpper q) = false →
       Subscriber.callback (mkSubDest q) exchange cipher proc tag props
           (cipher.enc plain) =
         .ok [.basicNack tag false,
              .basicPublish exchange (failedMarker ++ pyUpper q)
                (cipher.enc plain) true]) ∧
    (pyIsPrefix failedMarker (pyUpper q) = true →
       Subscriber.callback (mkSubDest q) exchange cipher proc tag props
           (cipher.enc plain) =
         .ok [.basicReject tag true]) := by
  constructor
  · intro hno
    simp [Subscriber.callback, decipher_message, cipher.dec_enc, hfail,
      mkSubDest, hno]
  · intro hpre
    have hsub : pyIsSub failedMarker (pyUpper q) = true :=
      pyIsSub_of_pyIsPrefix hpre
    simp [Subscriber.callback, decipher_message, cipher.dec_enc, hfail,
      mkSubDest, hsub]

/-- A concrete transport cipher for the witness. -/
def demoMsgCipher : Cipher Msg where
  enc := fun m => .mArr [m]
  dec := fun m =>
    match m with
    | .mArr [x] => some x
    | _ => none
  dec_enc := fun _ => rfl

/-- C2 (witness): a failing delivery on queue `"ORDERS"` is nacked and
republished to `FAILED-ORDERS`; the same delivery on `"FAILED-ORDERS"`
is rejected with requeue. -/
theorem subscriber_callback_failure_witness :
    Subscriber.callback (mkSubDest (strLit "ORDERS")) (strLit "X")
        demoMsgCipher (fun _ _ => false) 7 ()
        (demoMsgCipher.enc (.mStr (strLit "m"))) =
      .ok [.basicNack 7 false,
           .basicPublish (strLit "X")
             (failedMarker ++ pyUpper (strLit "ORDERS"))
             (demoMsgCipher.enc (.mStr (strLit "m"))) true] ∧
    Subscriber.callback (mkSubDest (strLit "FAILED-ORDERS")) (strLit "X")
        demoMsgCipher (fun _ _ => false) 7 ()
        (demoMsgCipher.enc (.mStr (strLit "m"))) =
      .ok [.basicReject 7 true] :=
  ⟨(subscriber_callback_failure (strLit "ORDERS") (strLit "X") demoMsgCipher
      (fun _ _ => false) 7 () (.mStr (strLit "m")) rfl).1 (by decide),
   (subscriber_callback_failure (strLit "FAILED-ORDERS") (strLit "X")
      demoMsgCipher (fun _ _ => false) 7 () (.mStr (strLit "m")) rfl).2
     (by decide)⟩

/-! ## Claim C5: construction-time configuration validation -/

/-- C5 (counterexample).  A configuration whose virtual host is present
but empty passes validation: construction succeeds and proceeds to the
network connection attempt, because the `all([...])` check only tests
`vhost is not None`.  (The repository's own tests construct with
`RABBIT_VHOST: ""`.) -/
theorem init_empty_vhost_accepted :
    publisherInit (strLit "q") (strLit "x")
        ⟨some "guest", some "guest", some "localhost", some 5672, some "",
         some 5, some 3, some [1]⟩ =
      ([.connect], .ok ⟨strLit "Q", strLit "X", 1⟩) := by
  rfl

/-- C5 (amended).  If the user, password or host is missing or empty, or
the virtual host is missing (absent from the mapping), then constructing
the secured Publisher or Subscriber fails with the configuration error,
and no network connection attempt is made (the effect list is empty).
An empty-but-present virtual host, by contrast, passes the check. -/
theorem init_missing_config (q e : PyStr) (c : PyConfig)
    (processorCallable : Bool)
    (h : c.RABBIT_USER = none ∨ c.RABBIT_USER = some "" ∨
         c.RABBIT_PASSWORD = none ∨ c.RABBIT_PASSWORD = some "" ∨
         c.RABBIT_HOST_IP = none ∨ c.RABBIT_HOST_IP = some "" ∨
         c.RABBIT_VHOST = none) :
    publisherInit q e c = ([], .error .missingConfigs) ∧
    subscriberInit q e c processorCallable = ([], .error .missingConfigs) := by
  have hreq : requiredConfigsPresent c = false := by
    rcases h with h | h | h | h | h | h | h <;>
      simp [requiredConfigsPresent, truthyStr, h]
  exact ⟨by simp [publisherInit, hreq], by simp [subscriberInit, hreq]⟩

/-- C5 (witness): omitting the host fails both constructions before any
connection attempt. -/
theorem init_missing_config_witness :
    publisherInit (strLit "q") (strLit "x")
        ⟨some "guest", some "guest", none, some 5672, some "/", some 5,
         some 3, some [1]⟩ =
      ([], .error .missingConfigs) ∧
    subscriberInit (strLit "q") (strLit "x")
        ⟨some "guest", some "guest", none, some 5672, some "/", some 5,
         some 3, some [1]⟩ true =
      ([], .error .missingConfigs) :=
  init_missing_config (strLit "q") (strLit "x")
    ⟨some "guest", some "guest", none, some 5672, some "/", some 5,
     some 3, some [1]⟩ true (Or.inr (Or.inr (Or.inr (Or.inr (Or.inl rfl)))))

/-! ## Claim C8: non-mapping message properties -/

/-- C8 (counterexample).  With a non-mapping `message_properties`
argument the secured variant logs the error and returns without raising
and without publishing, while the base variant performs no validation
and the call raises an unhandled `AttributeError` — the opposite of the
claimed assignment of behaviors to variants. -/
theorem publish_non_mapping_props_swapped :
    aderoPublish false true (fun _ => true) 1 1 = .invalidArgs ∧
    basePublish false true = .attributeError := by
  constructor
  · simp [aderoPublish]
  · rfl

/-- C8 (amended).  When `publish` is called with a non-mapping
properties argument: the secured variant logs an
`InvalidArgumentError`-style exception and returns without raising and
without publishing (regardless of broker or encoding state); the base
variant performs no validation, so the call raises an unhandled
`AttributeError` to the caller. -/
theorem publish_non_mapping_props (encodeOk : Bool) (broker : Nat → Bool)
    (attempt rc : Nat) (brokerOk : Bool) :
    aderoPublish false encodeOk broker attempt rc = .invalidArgs ∧
    basePublish false brokerOk = .attributeError := by
  constructor
  · simp [aderoPublish]
  · rfl

/-! ## Claim C4: consume-loop reconnects -/

/-- C4.  The subscriber's reconnect budget defaults to 3 when the
configuration does not set it; and for any budget `r`, when the broker
closes the connection on `n` consecutive consume attempts, `consume`
returns normally (the broker error is never re-raised): it sleeps the
fixed 5-second delay and re-invokes itself `min n r` times, and when
the failures outlast the budget the loop ends dormant. -/
theorem consume_broker_disconnect (r n : Nat) (c : PyConfig)
    (hc : c.RABBIT_CONNECTION_CLOSED_RETRY = none) :
    subscriberRetries c = 3 ∧
    consume r (List.replicate n .brokerClosed) =
      .ok ⟨List.replicate (min n r) 5, min n r,
           if n ≤ r then .stoppedNormally else .dormant⟩ := by
  refine ⟨by simp [subscriberRetries, hc], ?_⟩
  induction n generalizing r with
  | zero => simp [consume]
  | succ n ih =>
    cases r with
    | zero =>
      simp [consume, List.replicate_succ]
    | succ r =>
      have hrec := ih r
      simp [consume, List.replicate_succ, hrec, Nat.succ_min_succ,
        Nat.succ_le_succ_iff]

/-- C4 (witness): with the default budget of 3 and five consecutive
broker disconnects, `consume` reconnects three times (5-second waits)
and then returns normally, dormant. -/
theorem consume_broker_disconnect_witness :
    subscriberRetries
        ⟨some "guest", some "guest", some "localhost", some 5672, some "/",
         some 5, none, some [1]⟩ = 3 ∧
    consume 3 (List.replicate 5 .brokerClosed) =
      .ok ⟨[5, 5, 5], 3, .dormant⟩ := by
  have h := consume_broker_disconnect 3 5
    ⟨some "guest", some "guest", some "localhost", some 5672, some "/",
     some 5, none, some [1]⟩ rfl
  exact ⟨h.1, by simpa using h.2⟩

/-! ## Claim C1: publish retry/backoff ceiling -/

/-- C1 (counterexample).  On a fresh secured Publisher, five consecutive
broker failures followed by a success do NOT raise: the call returns
normally after the five backoff sleeps (60·1 … 60·5 seconds), because
the guard `retry_count <= 5` still retries on the fifth failure.  The
claim states that `publish` raises a `PublishError` after 5 consecutive
broker failures. -/
theorem publish_five_failures_no_error :
    aderoPublish true true (failFirst 5) 1 1 =
      .sent [60, 120, 180, 240, 300] 6 := by
  simp [aderoPublish, failFirst, PubResult.withSleep]

/-- C1 (amended).  On a fresh secured Publisher, a broker-level publish
failure is retried with linearly increasing backoff — the k-th failure
sleeps 60·k seconds, k starting at 1 — for up to 5 retries; the
exception wrapping the broker error is raised on the 6th consecutive
broker failure, and with fewer than 6 consecutive failures a later
attempt succeeds and no error reaches the caller. -/
theorem publish_retry_backoff (n : Nat) :
    (n ≤ 5 → aderoPublish true true (failFirst n) 1 1 =
       .sent ((List.range' 1 n).map fun k => 60 * k) (n + 1)) ∧
    (6 ≤ n → aderoPublish true true (failFirst n) 1 1 =
       .pubError ((List.range' 1 5).map fun k => 60 * k) 6) := by
  constructor
  · intro hn
    interval_cases n <;>
      simp [aderoPublish, failFirst, PubResult.withSleep, List.range']
  · intro hn
    have h1 : failFirst n 1 = false := by
      simp only [failFirst, decide_eq_false_iff_not]; omega
    have h2 : failFirst n 2 = false := by
      simp only [failFirst, decide_eq_false_iff_not]; omega
    have h3 : failFirst n 3 = false := by
      simp only [failFirst, decide_eq_false_iff_not]; omega
    have h4 : failFirst n 4 = false := by
      simp only [failFirst, decide_eq_false_iff_not]; omega
    have h5 : failFirst n 5 = false := by
      simp only [failFirst, decide_eq_false_iff_not]; omega
    have h6 : failFirst n 6 = false := by
      simp only [failFirst, decide_eq_false_iff_not]; omega
    simp [aderoPublish, h1, h2, h3, h4, h5, h6, PubResult.withSleep,
      List.range']

/-- C1 (witness): three failures then success — the call returns after
sleeping 60, 120 and 180 seconds; seven consecutive failures — the
exception is raised after the five allowed retries. -/
theorem publish_retry_backoff_witness :
    aderoPublish true true (failFirst 3) 1 1 = .sent [60, 120, 180] 4 ∧
    aderoPublish true true (failFirst 7) 1 1 =
      .pubError [60, 120, 180, 240, 300] 6 := by
  have ha := (publish_retry_backoff 3).1 (by decide)
  have hb := (publish_retry_backoff 7).2 (by decide)
  exact ⟨by simpa [List.range'] using ha, by simpa [List.range'] using hb⟩

/-! ## Claim C10: retry counter shared across publish calls -/

/-- C10 (counterexample).  After a publish call that succeeded following
1 broker failure (leaving `retry_count = 2`), a later publish call that
hits 4 further consecutive broker failures — the number the claim says
suffices for `PublishError` (5 − k with k = 1) — still succeeds when the
next attempt goes through, rather than raising. -/
theorem publish_counter_off_by_one :
    aderoPublish true true (failFirst 1) 1 1 = .sent [60] 2 ∧
    aderoPublish true true (failFirst 4) 1 2 =
      .sent [120, 180, 240, 300] 6 := by
  constructor <;> simp [aderoPublish, failFirst, PubResult.withSleep]

/-- C10 (amended).  The retry counter is initialized to 1 at
construction, incremented on each broker-level failure, and never reset
on success, so the ceiling is shared across publish calls on the same
instance: after a call that succeeded following k broker failures
(ending with `retry_count = k + 1`), a later call still succeeds if a
success follows up to 5 − k further consecutive failures, and raises
after 6 − k further consecutive failures (instead of the 6 a fresh
instance allows). -/
theorem publish_retry_counter_shared (k : Nat) (hk : k ≤ 5) :
    (∀ (q e : PyStr) (c : PyConfig) (st : PublisherState),
       (publisherInit q e c).2 = .ok st → st.retry_count = 1) ∧
    aderoPublish true true (failFirst k) 1 1 =
      .sent ((List.range' 1 k).map fun j => 60 * j) (k + 1) ∧
    aderoPublish true true (failFirst (5 - k)) 1 (k + 1) =
      .sent ((List.range' (k + 1) (5 - k)).map fun j => 60 * j) 6 ∧
    aderoPublish true true (fun _ => false) 1 (k + 1) =
      .pubError ((List.range' (k + 1) (5 - k)).map fun j => 60 * j) 6 := by
  refine ⟨?_, ?_, ?_, ?_⟩
  · intro q e c st hst
    unfold publisherInit at hst
    split_ifs at hst
    all_goals simp at hst
    exact hst ▸ rfl
  · interval_cases k <;>
      simp [aderoPublish, failFirst, PubResult.withSleep, List.range']
  · interval_cases k <;>
      simp [aderoPublish, failFirst, PubResult.withSleep, List.range']
  · interval_cases k <;>
      simp [aderoPublish, PubResult.withSleep, List.range']

/-- C10 (witness): with k = 2 prior failures the instance raises after
4 further consecutive failures (sleeps 180, 240, 300), not 6. -/
theorem publish_retry_counter_shared_witness :
    aderoPublish true true (failFirst 2) 1 1 = .sent [60, 120] 3 ∧
    aderoPublish true true (fun _ => false) 1 3 =
      .pubError [180, 240, 300] 6 := by
  have h := publish_retry_counter_shared 2 (by decide)
  exact ⟨by simpa [List.range'] using h.2.1,
         by simpa [List.range'] using h.2.2.2⟩

/-! ## Claim C3: RPC request/response round trip -/

/-- C3 (counterexample).  On the claim's own example payload
`{"n": 4}`, the server's `on_request` raises a `TypeError` at
`int(msg)` before the handler is invoked: no reply is published and the
request is not acked, so `call` cannot return 16.  `demoLoadsDict`
models `json.loads` on the single body `b'{"n": 4}'`. -/
theorem rpc_dict_payload_fails :
    RPCServer.on_request (fun _ => .ok (.dict [(.str (strLit "n"), .int 4)]))
        (fun _ => []) (fun j => .int (j * j)) 1 (strLit "CBQ")
        (strLit "cid-1") (strLit "\x7b\"n\": 4\x7d") =
      .error .typeError := rfl

/-- C3 (amended).  `call` clears the stale response, publishes the
serialized request with `reply_to` set to the client's private queue and
`correlation_id` set to the fresh identifier, and silently discards any
reply whose correlation id does not match.  The server coerces the
decoded request with `int(msg)` before invoking the handler, so the
round trip completes only for integer payloads; when it does, the reply
carries the same correlation id and `call` returns the raw serialized
reply body `dumps(handler(n))` — the JSON text, not the handler's
value itself. -/
theorem rpc_call_round_trip (loads : PyStr → Except PyErr PyVal)
    (dumps : PyVal → PyStr) (handler : Int → PyVal) (n : Int)
    (exchange queue_name callback_queue corr_id : PyStr) (tag : Nat)
    (hjson : loads (dumps (.int n)) = .ok (.int n)) :
    (RPCClient.call dumps exchange queue_name callback_queue corr_id
        (.int n) [] =
      (⟨exchange, queue_name, callback_queue, corr_id, dumps (.int n)⟩,
       none)) ∧
    (∀ cid2 b, cid2 ≠ corr_id →
      (RPCClient.call dumps exchange queue_name callback_queue corr_id
          (.int n) [⟨cid2, b⟩]).2 = none) ∧
    (RPCServer.on_request loads dumps handler tag callback_queue corr_id
        (dumps (.int n)) =
      .ok (⟨corr_id, dumps (handler n)⟩, callback_queue, tag)) ∧
    (RPCClient.call dumps exchange queue_name callback_queue corr_id
        (.int n) [⟨corr_id, dumps (handler n)⟩]).2 =
      some (dumps (handler n)) := by
  refine ⟨rfl, ?_, ?_, ?_⟩
  · intro cid2 b hne
    have hne' : corr_id ≠ cid2 := fun hh => hne hh.symm
    simp [RPCClient.call, RPCClient.on_response, hne']
  · simp [RPCServer.on_request, hjson, pyIntCast]
  · simp [RPCClient.call, RPCClient.on_response]

/-- A JSON codec model sufficient for integer bodies, for the witness:
`dumps` encodes an integer's sign and magnitude, `loads` decodes it. -/
def demoDumps : PyVal → PyStr
  | .int n => [if n < 0 then 1 else 0, n.natAbs]
  | _ => []

/-- Inverse of `demoDumps` on integer bodies. -/
def demoLoads : PyStr → Except PyErr PyVal
  | [0, m] => .ok (.int (Int.ofNat m))
  | [1, m] => .ok (.int (-(Int.ofNat m)))
  | _ => .error .jsonDecodeError

/-- C3 (witness): the squaring handler at payload 4 — the server
replies with the serialized body of 16 under the same correlation id,
and `call` returns that raw body. -/
theorem rpc_call_round_trip_witness :
    RPCServer.on_request demoLoads demoDumps (fun j => .int (j * j)) 1
        (strLit "CBQ") (strLit "cid-1") (demoDumps (.int 4)) =
      .ok (⟨strLit "cid-1", demoDumps (.int 16)⟩, strLit "CBQ", 1) ∧
    (RPCClient.call demoDumps (strLit "X") (strLit "Q") (strLit "CBQ")
        (strLit "cid-1") (.int 4)
        [⟨strLit "cid-1", demoDumps (.int 16)⟩]).2 =
      some (demoDumps (.int 16)) := by
  have h := rpc_call_round_trip demoLoads demoDumps (fun j => .int (j * j)) 4
    (strLit "X") (strLit "Q") (strLit "CBQ") (strLit "cid-1") 1 rfl
  exact ⟨h.2.2.1, h.2.2.2⟩

end Adero
